import Mathlib

/-!
Verification of the ai-storybook-generator pipeline.

This file gives a shallow embedding of the deterministic parts of the
repository (judge aggregation in `judge.py`, patch application and the
rewrite/smoothing escalation in `revisor.py`, JSON verdict parsing in
`judge.py`, and the judge-revise loops in `services/generator.py`) and
proves or refutes the frozen specification claims about them.

Modelling conventions:
- Python `str` is modelled as `List Char` (`Str` below); `str.strip` as
  `pyStrip` (ASCII whitespace set of CPython; exotic Unicode whitespace is
  not modelled since no claim depends on it).
- Python floats that arise in the code (`fail_rate`, the `0.4` threshold,
  `average_score`) are modelled as exact rationals.
- LLM calls (`call_model`) are nondeterministic external effects; they are
  modelled as oracle function parameters.  `json.loads` is likewise an
  external library call and is modelled as a parameter producing an
  `Option JsonVal` (`none` = the call raised).  JSON numbers are modelled
  as integers; no claim evaluates a non-integer number.
- Python exceptions are modelled with `Except`/`Option`; a total Lean
  function models a Python function that cannot raise.
-/

/-- Python strings, modelled as lists of characters. -/
abbrev Str := List Char

/-- The whitespace characters removed by Python `str.strip()` (ASCII part). -/
def isPySpace (c : Char) : Bool :=
  c == ' ' || c == '\t' || c == '\n' || c == '\r' || c == Char.ofNat 11 || c == Char.ofNat 12

/-- Python `s.strip()`: drop whitespace from both ends. -/
def pyStrip (s : Str) : Str :=
  (((s.dropWhile isPySpace).reverse).dropWhile isPySpace).reverse

/-- Worker for `replaceAll`, structurally recursive on a fuel that always
dominates the remaining text length (each step consumes at least one
character when the pattern is non-empty), so the fuel-exhausted case is
unreachable for `fuel = s.length`. -/
def replaceAllAux (q f : Str) : Nat → Str → Str
  | _, [] => []
  | 0, s => s
  | fuel + 1, c :: rest =>
      if q ≠ [] ∧ q <+: (c :: rest) then
        f ++ replaceAllAux q f fuel ((c :: rest).drop q.length)
      else
        c :: replaceAllAux q f fuel rest

/-- Python `s.replace(q, f)` (all non-overlapping occurrences, left to right).
Both call sites in the source pass a non-empty pattern, so the Python
special case for an empty pattern is not modelled. -/
def replaceAll (q f s : Str) : Str :=
  replaceAllAux q f s.length s

/-- Python `text.replace(quote, fix, 1)` for a quote known to occur:
replace exactly the first occurrence. -/
def replaceFirst (s q f : Str) : Str :=
  match s with
  | [] => []
  | c :: rest =>
      if q <+: (c :: rest) then f ++ (c :: rest).drop q.length
      else c :: replaceFirst rest q f

/-- Python `str.find(c)` for a single character: index of first occurrence. -/
def pyFind (s : Str) (c : Char) : Option Nat :=
  s.findIdx? (· == c)

/-- Python `str.rfind(c)` for a single character: index of last occurrence. -/
def pyRfind (s : Str) (c : Char) : Option Nat :=
  (s.reverse.findIdx? (· == c)).map (fun i => s.length - 1 - i)

def lbraceChar : Char := Char.ofNat 123
def rbraceChar : Char := Char.ofNat 125
def lbrackChar : Char := Char.ofNat 91
def rbrackChar : Char := Char.ofNat 93
def squoteChar : Char := Char.ofNat 39

/-- Decoded JSON values, as produced by `json.loads`.  Numbers are modelled
as integers (no claim evaluates a non-integer number). -/
inductive JsonVal : Type where
  | null : JsonVal
  | bool : Bool → JsonVal
  | num : Int → JsonVal
  | str : Str → JsonVal
  | arr : List JsonVal → JsonVal
  | obj : List (Str × JsonVal) → JsonVal

/-- A Python dict with string keys, in insertion order. -/
abbrev PyDict := List (Str × JsonVal)

/-- Python dict lookup `d[k]` / `d.get(k)` (keys are unique in dicts built
by `json.loads`, so first match is the match). -/
def dictLookup : PyDict → Str → Option JsonVal
  | [], _ => none
  | (k0, v0) :: rest, k => if k0 = k then some v0 else dictLookup rest k

/-- Python `d.setdefault(k, v)`: insert at the end if the key is absent. -/
def setdefault (d : PyDict) (k : Str) (v : JsonVal) : PyDict :=
  if (dictLookup d k).isSome then d else d ++ [(k, v)]

/-- Python `d[k] = v`: overwrite in place, or append if the key is absent. -/
def dictSet : PyDict → Str → JsonVal → PyDict
  | [], k, v => [(k, v)]
  | (k0, v0) :: rest, k, v =>
      if k0 = k then (k0, v) :: rest else (k0, v0) :: dictSet rest k v

mutual
/-- Python `repr` of a decoded JSON value (escaping of quote characters
inside strings is not modelled; no claim evaluates it). -/
def pyRepr : JsonVal → Str
  | .null => "None".data
  | .bool true => "True".data
  | .bool false => "False".data
  | .num n => (toString n).data
  | .str s => squoteChar :: (s ++ [squoteChar])
  | .arr xs => lbrackChar :: (pyReprElems xs ++ [rbrackChar])
  | .obj fs => lbraceChar :: (pyReprFields fs ++ [rbraceChar])

def pyReprElems : List JsonVal → Str
  | [] => []
  | [x] => pyRepr x
  | x :: y :: xs => pyRepr x ++ ", ".data ++ pyReprElems (y :: xs)

def pyReprFields : List (Str × JsonVal) → Str
  | [] => []
  | [e] => pyReprEntry e
  | e :: e2 :: fs => pyReprEntry e ++ ", ".data ++ pyReprFields (e2 :: fs)

def pyReprEntry : Str × JsonVal → Str
  | (k, v) => squoteChar :: (k ++ [squoteChar]) ++ ": ".data ++ pyRepr v
end

/-- Python `str(x)` for a decoded JSON value. -/
def pyStr : JsonVal → Str
  | .str s => s
  | v => pyRepr v

/-- `judge.py` `DEFAULT_JUDGE_RESPONSE`: the fail-closed verdict. -/
def DEFAULT_JUDGE_RESPONSE : PyDict :=
  [("score".data, .num 1),
   ("metrics".data, .obj []),
   ("critique".data, .str "Error: Judge failed to produce valid JSON.".data),
   ("violations".data, .arr [])]

/-- `judge.py` `_extract_json_object`: strip, remove markdown fences,
slice from the first `{` to the last `}` when that span is non-trivial. -/
def extract_json_object (text : Str) : Str :=
  let cleaned := pyStrip (replaceAll "```".data [] (replaceAll "```json".data [] (pyStrip text)))
  match pyFind cleaned lbraceChar, pyRfind cleaned rbraceChar with
  | some start, some stop =>
      if start < stop then (cleaned.drop start).take (stop + 1 - start) else cleaned
  | _, _ => cleaned

/-- Normalization of one entry of the `violations` list: Python keeps only
dict entries and rebuilds them as `quote`/`reason`/`fix` with
`str(...).strip()` applied to each field. -/
def normViolation : JsonVal → Option JsonVal
  | .obj vf =>
      some (.obj [("quote".data, .str (pyStrip (pyStr ((dictLookup vf "quote".data).getD (.str []))))),
                  ("reason".data, .str (pyStrip (pyStr ((dictLookup vf "reason".data).getD (.str []))))),
                  ("fix".data, .str (pyStrip (pyStr ((dictLookup vf "fix".data).getD (.str [])))))])
  | _ => none

/-- `judge.py` `parse_judge_response`.  `loads` models `json.loads`
(`none` = the call raised).  Any exception inside the `try` block —
`loads` raising, or `data` not being a dict so that `data.setdefault`
raises — lands in the `except` branch, which returns a copy of the
default; the function itself never raises, which the total Lean function
witnesses. -/
def parse_judge_response (loads : Str → Option JsonVal)
    (response_text : Str) (default : Option PyDict) : PyDict :=
  let dflt := default.getD DEFAULT_JUDGE_RESPONSE
  match loads (extract_json_object response_text) with
  | some (.obj fields) =>
      let data := setdefault fields "score".data (.num 1)
      let data := setdefault data "metrics".data (.obj [])
      let data := setdefault data "critique".data (.str [])
      let data := setdefault data "violations".data (.arr [])
      let vlist : List JsonVal :=
        match dictLookup data "violations".data with
        | some (.arr xs) => xs
        | _ => []
      dictSet data "violations".data (.arr (vlist.filterMap normViolation))
  | _ => dflt

/-! ## Typed judge verdicts and the story-roster aggregator (`judge.py`) -/

/-- One normalized violation, as produced by `parse_judge_response`
(`quote`/`reason`/`fix` are always present there). -/
structure Violation where
  quote : Str
  reason : Str
  fix : Str
deriving DecidableEq

/-- One axis verdict as consumed by the aggregator: the integer score
extracted by `int(res.get("score", 1))`, the critique, and the normalized
violations list. -/
structure JudgeRes where
  score : Int
  critique : Str
  violations : List Violation
deriving DecidableEq

/-- One patch entry, a dict with keys `judge`/`quote`/`reason`/`fix`
(all four are always set where patches are built). -/
structure Patch where
  judge : Str
  quote : Str
  reason : Str
  fix : Str
deriving DecidableEq

/-- `judge.py` `collect_all_patches`: iterate the details mapping in
insertion order; keep a violation only when its stripped quote and
stripped fix are both non-empty, recording stripped fields. -/
def collect_all_patches (details : List (Str × JudgeRes)) : List Patch :=
  details.flatMap (fun d =>
    d.2.violations.filterMap (fun v =>
      let quote := pyStrip v.quote
      let fix := pyStrip v.fix
      let reason := pyStrip v.reason
      if quote ≠ [] ∧ fix ≠ [] then
        some { judge := d.1, quote := quote, reason := reason, fix := fix }
      else none))

/-- `judge.py` line 381: the story-roster pass rule — safety must equal 5,
the other three scores must be at least 4. -/
def story_roster_pass (s_score c_score w_score t_score : Int) : Bool :=
  decide (s_score = 5) && decide (4 ≤ c_score) && decide (4 ≤ w_score) && decide (4 ≤ t_score)

/-- `judge.py` line 721: the brainstorm-roster pass rule — all four scores
must be at least 4. -/
def brainstorm_roster_pass (conc_score uniq_score sens_score safe_score : Int) : Bool :=
  decide (4 ≤ safe_score) && decide (4 ≤ conc_score) && decide (4 ≤ uniq_score) && decide (4 ≤ sens_score)

/-- The aggregate verdict returned by `comprehensive_judge`. -/
structure RosterVerdict where
  pass : Bool
  average_score : ℚ
  details : List (Str × JudgeRes)
  patches : List Patch
  collective_critique : Str
deriving DecidableEq

/-- The deterministic core of `judge.py` `comprehensive_judge`, given the
four axis verdicts returned by the judges: build the details mapping
(insertion order safety, comprehensibility, writing, thematic), compute
the average and the pass flag, and collect then filter the patch list. -/
def comprehensive_judge_core (s_res c_res w_res t_res : JudgeRes) : RosterVerdict :=
  let details := [("safety".data, s_res), ("comprehensibility".data, c_res),
                  ("writing".data, w_res), ("thematic".data, t_res)]
  let s_score := s_res.score
  let c_score := c_res.score
  let w_score := w_res.score
  let t_score := t_res.score
  let scores := [s_score, c_score, w_score, t_score]
  let avg_score : ℚ := ((scores.sum : Int) : ℚ) / ((scores.length : Nat) : ℚ)
  let all_pass := story_roster_pass s_score c_score w_score t_score
  let patches := collect_all_patches details
  let patches := patches.filter (fun p =>
    decide (p.fix ≠ []) && decide (p.quote ≠ []) && decide (pyStrip p.fix ≠ pyStrip p.quote))
  let collective_critique :=
    "SAFETY (Score ".data ++ (toString s_score).data ++ "): ".data ++ s_res.critique ++ "\n".data ++
    "LOGIC (Score ".data ++ (toString c_score).data ++ "): ".data ++ c_res.critique ++ "\n".data ++
    "WRITING (Score ".data ++ (toString w_score).data ++ "): ".data ++ w_res.critique ++ "\n".data ++
    "THEME (Score ".data ++ (toString t_score).data ++ "): ".data ++ t_res.critique
  { pass := all_pass, average_score := avg_score, details := details,
    patches := patches, collective_critique := collective_critique }

/-- `comprehensive_judge` with the exception behavior of its four judge
calls made explicit: `asyncio.gather` is used without
`return_exceptions=True`, so if any judge call raises, the exception
propagates out of `comprehensive_judge` and no verdict is produced.
(Real `gather` propagates the chronologically first exception; this model
propagates the first in argument order — every claim here depends only on
whether an exception propagates, not on which.) -/
def comprehensive_judgeE (s c w t : Except Str JudgeRes) : Except Str RosterVerdict :=
  match s, c, w, t with
  | .ok sr, .ok cr, .ok wr, .ok tr => .ok (comprehensive_judge_core sr cr wr tr)
  | .error e, _, _, _ => .error e
  | _, .error e, _, _ => .error e
  | _, _, .error e, _ => .error e
  | _, _, _, .error e => .error e

/-! ## The revisor (`revisor.py`) -/

/-- One entry of the patch report built by
`_apply_patches_deterministically`. -/
structure ReportEntry where
  judge : Str
  applied : Bool
  reason : Str
  quote : Str
  fix : Str
deriving DecidableEq

/-- `revisor.py` `_apply_patch_once`: replace the first occurrence of
`quote` with `fix`; if `quote` is empty or absent, leave the text alone. -/
def apply_patch_once (text quote fix : Str) : Str × Bool :=
  if quote = [] ∨ ¬ (quote <:+: text) then (text, false)
  else (replaceFirst text quote fix, true)

/-- `revisor.py` `_apply_patches_deterministically`: apply the patches in
order, each one against the cumulative result of the previous ones,
recording one report entry per patch. -/
def apply_patches_deterministically (story : Str) (patches : List Patch) : Str × List ReportEntry :=
  match patches with
  | [] => (story, [])
  | p :: ps =>
      let quote := pyStrip p.quote
      let fix := pyStrip p.fix
      let judge := pyStrip p.judge
      let reason := pyStrip p.reason
      let step := apply_patch_once story quote fix
      let rest := apply_patches_deterministically step.1 ps
      (rest.1, { judge := judge, applied := step.2, reason := reason,
                 quote := quote, fix := fix } :: rest.2)

/-- `revisor.py` line 87: `fail_rate = (len(failed) / max(1, len(patch_report)))
if patch_report else 0.0`. -/
def fail_rate_of (patch_report : List ReportEntry) : ℚ :=
  if patch_report = [] then 0
  else (((patch_report.filter (fun r => !r.applied)).length : Nat) : ℚ)
       / ((max 1 patch_report.length : Nat) : ℚ)

/-- `revisor.py` lines 91-95: the quote/fix rendering of the patch list
given to the rewrite fallback prompt (entries with an empty quote or fix
are skipped). -/
def renderPatchList (patches : List Patch) : Str :=
  List.intercalate "\n".data
    ((patches.filter (fun p => decide (p.quote ≠ []) && decide (p.fix ≠ []))).map
      (fun p => "- QUOTE: ".data ++ p.quote ++ "\n  FIX: ".data ++ p.fix))

/-- The two LLM oracles used by `revise_story`.  `rewriteModel` stands for
the fallback `call_model` on the rewrite prompt; it receives the prompt's
variable parts (original request, plan, the current story, the rendered
patch list).  `smoothModel` stands for `_smoothing_pass`. -/
structure RevisorCalls where
  rewriteModel : Str → Str → Str → Str → Str
  smoothModel : Str → Str → Str → Str

/-- `revisor.py` `revise_story`.  Returns the final text together with the
flag recording whether the rewrite fallback was invoked. -/
def revise_story (C : RevisorCalls) (original_request plan current_story : Str)
    (patches : List Patch) (do_smoothing_pass : Bool) : Str × Bool :=
  let det := apply_patches_deterministically current_story patches
  let patched_story := det.1
  let patch_report := det.2
  let fail_rate := fail_rate_of patch_report
  let fb : Bool := decide (patches ≠ [] ∧ fail_rate > (0.4 : ℚ))
  let patched_story :=
    if fb then C.rewriteModel original_request plan current_story (renderPatchList patches)
    else patched_story
  let out := if do_smoothing_pass then C.smoothModel original_request plan patched_story
             else patched_story
  (out, fb)

/-! ## The judge-revise loops (`services/generator.py`) -/

/-- The four axis scores of one story-roster round, in roster order. -/
structure AxisScores where
  safety : Int
  comprehensibility : Int
  writing : Int
  thematic : Int

/-- The result of one judge-revise loop: the artifact the pipeline
proceeds with, the number of rounds evaluated, and the number of
revision passes performed. -/
structure LoopResult where
  final : Str
  rounds : Nat
  revisions : Nat
deriving DecidableEq

/-- The common shape of both `for`-loops in `StoryGenerator.generate`:
judge the artifact; on a pass verdict stop at once, otherwise revise and
continue; when the fuel (the fixed round cap) is exhausted, proceed with
the last revised artifact. -/
def judgeReviseLoop (judgePass : Nat → Str → Bool) (revise : Nat → Str → Str) :
    Nat → Nat → Str → LoopResult
  | 0, _, story => { final := story, rounds := 0, revisions := 0 }
  | fuel + 1, i, story =>
      if judgePass i story then { final := story, rounds := 1, revisions := 0 }
      else
        let story2 := revise i story
        let r := judgeReviseLoop judgePass revise fuel (i + 1) story2
        { final := r.final, rounds := r.rounds + 1, revisions := r.revisions + 1 }

/-- `generator.py` lines 398-428: the story refinement loop, capped at 10
rounds; each round's pass flag is the story-roster rule on the four axis
scores returned by that round's judges. -/
def story_loop (judge : Nat → Str → AxisScores) (revise : Nat → Str → Str)
    (draft : Str) : LoopResult :=
  judgeReviseLoop
    (fun i st =>
      let a := judge i st
      story_roster_pass a.safety a.comprehensibility a.writing a.thematic)
    revise 10 0 draft

/-- `generator.py` lines 371-382: the brainstorm refinement loop, capped
at 5 rounds, with the brainstorm-roster pass rule. -/
def brainstorm_loop (judge : Nat → Str → AxisScores) (revise : Nat → Str → Str)
    (draft : Str) : LoopResult :=
  judgeReviseLoop
    (fun i st =>
      let a := judge i st
      brainstorm_roster_pass a.safety a.comprehensibility a.writing a.thematic)
    revise 5 0 draft

/-- The artifact obtained after `n` successive revision passes starting at
round index `i`. -/
def reviseChain (revise : Nat → Str → Str) : Nat → Nat → Str → Str
  | _, 0, story => story
  | i, n + 1, story => reviseChain revise (i + 1) n (revise i story)

/-- The ways `json.loads(...)` can fail to deliver a JSON object: the
call raised, or it returned a non-dict value (on which `data.setdefault`
then raises inside the `try` block). -/
def notJsonObject : Option JsonVal → Prop
  | some (.obj _) => False
  | _ => True

/-- The response text `{"score": 7}`. -/
def jsonScore7 : Str := "\x7b\"score\": 7\x7d".data

/-- A model of `json.loads` on the single response `{"score": 7}`:
it decodes to the object with score 7 (and raises on anything else,
which is immaterial to the claims evaluating it). -/
def loadsScore7 : Str → Option JsonVal :=
  fun s => if s = jsonScore7 then some (.obj [("score".data, JsonVal.num 7)]) else none

/-! ## Concrete instances used by example conjuncts and witnesses -/

/-- Concrete oracles for the escalation examples: the rewrite model and
the smoothing model return recognizable outputs. -/
def C2ex : RevisorCalls :=
  { rewriteModel := fun _ _ _ _ => "REWRITE".data, smoothModel := fun _ _ s => s }

/-- A patch as built by `collect_all_patches`, with the given quote and fix. -/
def mkPatchC (q f : String) : Patch :=
  { judge := "judge".data, quote := q.data, reason := "reason".data, fix := f.data }

/-- Five patches of which three fail to find their anchor in `"abcde"`. -/
def C2patchesHi : List Patch :=
  [mkPatchC "a" "1", mkPatchC "b" "2", mkPatchC "x" "3", mkPatchC "y" "4", mkPatchC "z" "5"]

/-- Five patches of which one fails to find its anchor in `"abcde"`. -/
def C2patchesLo : List Patch :=
  [mkPatchC "a" "1", mkPatchC "b" "2", mkPatchC "c" "3", mkPatchC "d" "4", mkPatchC "x" "5"]

/-- Concrete oracles distinguishing the smoothing output from its input. -/
def C10ex : RevisorCalls :=
  { rewriteModel := fun _ _ _ _ => "R".data, smoothModel := fun _ _ s => 'S' :: s }

/-! ## Helper lemmas about `pyStrip` -/

lemma head?_dropWhile_false (p : Char → Bool) (l : Str) :
    ∀ a ∈ (l.dropWhile p).head?, p a = false := by
  induction l with
  | nil => simp
  | cons x xs ih =>
      rw [List.dropWhile_cons]
      by_cases h : p x = true
      · simpa [h] using ih
      · intro a ha
        rw [if_neg h] at ha
        simp only [List.head?_cons, Option.mem_def, Option.some.injEq] at ha
        subst ha
        exact Bool.eq_false_iff.mpr h

lemma dropWhile_eq_self_of_head (p : Char → Bool) (l : Str)
    (h : ∀ a ∈ l.head?, p a = false) : l.dropWhile p = l := by
  cases l with
  | nil => rfl
  | cons x xs =>
      rw [List.dropWhile_cons]
      simp [h x (by simp)]

lemma pyStrip_prefix_dropWhile (s : Str) : pyStrip s <+: s.dropWhile isPySpace := by
  have h := List.dropWhile_suffix (l := (s.dropWhile isPySpace).reverse) isPySpace
  have h2 := List.reverse_prefix.mpr h
  simpa [List.reverse_reverse, pyStrip] using h2

lemma prefix_head?_eq {l m : Str} (h : l <+: m) (a : Char) (ha : l.head? = some a) :
    m.head? = some a := by
  obtain ⟨r, rfl⟩ := h
  cases l with
  | nil => simp at ha
  | cons x xs => simpa using ha

lemma pyStrip_head (s : Str) : ∀ a ∈ (pyStrip s).head?, isPySpace a = false := by
  intro a ha
  exact head?_dropWhile_false isPySpace s a
    (prefix_head?_eq (pyStrip_prefix_dropWhile s) a ha)

lemma pyStrip_getLast (s : Str) : ∀ a ∈ (pyStrip s).getLast?, isPySpace a = false := by
  intro a ha
  unfold pyStrip at ha
  rw [List.getLast?_reverse] at ha
  exact head?_dropWhile_false isPySpace _ a ha

lemma pyStrip_idem (s : Str) : pyStrip (pyStrip s) = pyStrip s := by
  have h1 : (pyStrip s).dropWhile isPySpace = pyStrip s :=
    dropWhile_eq_self_of_head _ _ (pyStrip_head s)
  have h2 : (pyStrip s).reverse.dropWhile isPySpace = (pyStrip s).reverse := by
    apply dropWhile_eq_self_of_head
    intro a ha
    rw [List.head?_reverse] at ha
    exact pyStrip_getLast s a ha
  show (((pyStrip s).dropWhile isPySpace).reverse.dropWhile isPySpace).reverse = pyStrip s
  rw [h1, h2, List.reverse_reverse]

/-! ## C1: the story-roster pass rule -/

/-- C1: the story-roster aggregator's pass flag is true iff the safety
score equals 5 and each of the comprehensibility, writing, and thematic
scores is at least 4; in particular (5,5,5,5) and (5,4,4,4) pass while
(5,5,5,3) and (4,5,5,5) fail. -/
theorem C1_story_roster_pass_rule :
    (∀ s_res c_res w_res t_res : JudgeRes,
      ((comprehensive_judge_core s_res c_res w_res t_res).pass = true ↔
        (s_res.score = 5 ∧ 4 ≤ c_res.score ∧ 4 ≤ w_res.score ∧ 4 ≤ t_res.score)))
    ∧ (comprehensive_judge_core ⟨5, [], []⟩ ⟨5, [], []⟩ ⟨5, [], []⟩ ⟨5, [], []⟩).pass = true
    ∧ (comprehensive_judge_core ⟨5, [], []⟩ ⟨4, [], []⟩ ⟨4, [], []⟩ ⟨4, [], []⟩).pass = true
    ∧ (comprehensive_judge_core ⟨5, [], []⟩ ⟨5, [], []⟩ ⟨5, [], []⟩ ⟨3, [], []⟩).pass = false
    ∧ (comprehensive_judge_core ⟨4, [], []⟩ ⟨5, [], []⟩ ⟨5, [], []⟩ ⟨5, [], []⟩).pass = false := by
  refine ⟨fun a b c d => ?_, rfl, rfl, rfl, rfl⟩
  show story_roster_pass a.score b.score c.score d.score = true ↔ _
  simp [story_roster_pass, and_assoc]

/-! ## C8: the patch collection of the story roster -/

lemma collect_filter_axis (jn : Str) (res : JudgeRes) :
    (collect_all_patches [(jn, res)]).filter (fun p =>
        decide (p.fix ≠ []) && decide (p.quote ≠ []) && decide (pyStrip p.fix ≠ pyStrip p.quote))
      = (res.violations.filter (fun v =>
          decide (pyStrip v.quote ≠ []) && decide (pyStrip v.fix ≠ []) &&
          decide (pyStrip v.quote ≠ pyStrip v.fix))).map
        (fun v => { judge := jn, quote := pyStrip v.quote, reason := pyStrip v.reason,
                    fix := pyStrip v.fix }) := by
  simp only [collect_all_patches, List.flatMap_cons, List.flatMap_nil, List.append_nil]
  induction res.violations with
  | nil => rfl
  | cons v vs ih =>
      have hsplit2 : (v :: vs) = [v] ++ vs := rfl
      rw [hsplit2, List.filterMap_append, List.filter_append, List.filter_append,
          List.map_append, ih]
      congr 1
      by_cases hq : pyStrip v.quote = []
      · simp [hq]
      · by_cases hf : pyStrip v.fix = []
        · simp [hq, hf]
        · by_cases hne : pyStrip v.quote = pyStrip v.fix
          · simp [hq, hf, hne, pyStrip_idem]
          · simp [hq, hf, hne, Ne.symm hne, pyStrip_idem]

/-- C8: the aggregator's patch list consists of exactly those violations,
axis by axis in the fixed roster order, whose trimmed quote and trimmed
fix are both non-empty and not equal to each other, each tagged with its
axis name; in particular no patch has its quote equal to its fix. -/
theorem C8_patch_collection (s_res c_res w_res t_res : JudgeRes) :
    (comprehensive_judge_core s_res c_res w_res t_res).patches
      = (comprehensive_judge_core s_res c_res w_res t_res).details.flatMap (fun d =>
          (d.2.violations.filter (fun v =>
            decide (pyStrip v.quote ≠ []) && decide (pyStrip v.fix ≠ []) &&
            decide (pyStrip v.quote ≠ pyStrip v.fix))).map
          (fun v => { judge := d.1, quote := pyStrip v.quote, reason := pyStrip v.reason,
                      fix := pyStrip v.fix }))
    ∧ ((comprehensive_judge_core s_res c_res w_res t_res).patches.all
        (fun p => decide (p.quote ≠ p.fix))) = true := by
  have hsplit : collect_all_patches
        [("safety".data, s_res), ("comprehensibility".data, c_res),
         ("writing".data, w_res), ("thematic".data, t_res)]
      = collect_all_patches [("safety".data, s_res)]
        ++ collect_all_patches [("comprehensibility".data, c_res)]
        ++ collect_all_patches [("writing".data, w_res)]
        ++ collect_all_patches [("thematic".data, t_res)] := by
    simp [collect_all_patches]
  have hdet : (comprehensive_judge_core s_res c_res w_res t_res).details
      = [("safety".data, s_res), ("comprehensibility".data, c_res),
         ("writing".data, w_res), ("thematic".data, t_res)] := rfl
  have hmain :
      (comprehensive_judge_core s_res c_res w_res t_res).patches
        = (comprehensive_judge_core s_res c_res w_res t_res).details.flatMap (fun d =>
            (d.2.violations.filter (fun v =>
              decide (pyStrip v.quote ≠ []) && decide (pyStrip v.fix ≠ []) &&
              decide (pyStrip v.quote ≠ pyStrip v.fix))).map
            (fun v => { judge := d.1, quote := pyStrip v.quote, reason := pyStrip v.reason,
                        fix := pyStrip v.fix })) := by
    show (collect_all_patches
        [("safety".data, s_res), ("comprehensibility".data, c_res),
         ("writing".data, w_res), ("thematic".data, t_res)]).filter _ = _
    rw [hsplit, List.filter_append, List.filter_append, List.filter_append,
        collect_filter_axis, collect_filter_axis, collect_filter_axis, collect_filter_axis,
        hdet]
    simp [List.flatMap_cons, List.append_assoc]
  refine ⟨hmain, ?_⟩
  rw [hmain]
  simp only [List.all_eq_true, List.mem_flatMap, List.mem_map, List.mem_filter]
  rintro p ⟨d, _, v, ⟨_, hv⟩, rfl⟩
  simp only [Bool.and_eq_true, decide_eq_true_eq] at hv ⊢
  exact hv.2

/-! ## C5: exception behavior of the parallel roster -/

/-- C5 counterexample: when the safety evaluator call throws, the
aggregation does not complete the round — `asyncio.gather` (used without
`return_exceptions=True`) propagates the exception out of
`comprehensive_judge`, so no details mapping with the other three axis
results is produced. -/
theorem C5_counterexample :
    (comprehensive_judgeE (Except.error "model call failed".data)
      (Except.ok ⟨5, [], []⟩) (Except.ok ⟨5, [], []⟩) (Except.ok ⟨5, [], []⟩)).isOk = false := rfl

/-- C5 (amended): the roster completes iff none of the four evaluator
calls throws; when all four return, every axis result is present and
correctly attributed to its axis name in the details mapping, but a
single throwing evaluator aborts the whole aggregation (per-axis
isolation exists only for JSON parse failures, which
`parse_judge_response` resolves to the fail-closed default inside the
judge without throwing). -/
theorem C5_gather_exception_behavior :
    (∀ s c w t : Except Str JudgeRes,
      (comprehensive_judgeE s c w t).isOk = (s.isOk && c.isOk && w.isOk && t.isOk))
    ∧ (∀ sr cr wr tr : JudgeRes,
        comprehensive_judgeE (.ok sr) (.ok cr) (.ok wr) (.ok tr)
            = .ok (comprehensive_judge_core sr cr wr tr)
        ∧ (comprehensive_judge_core sr cr wr tr).details
            = [("safety".data, sr), ("comprehensibility".data, cr),
               ("writing".data, wr), ("thematic".data, tr)]) := by
  constructor
  · intro s c w t
    cases s <;> cases c <;> cases w <;> cases t <;> rfl
  · intro sr cr wr tr
    exact ⟨rfl, rfl⟩

/-! ## C7: bounded judge-revise loops -/

lemma judgeReviseLoop_rounds_le (jp : Nat → Str → Bool) (rv : Nat → Str → Str) :
    ∀ fuel i story, (judgeReviseLoop jp rv fuel i story).rounds ≤ fuel := by
  intro fuel
  induction fuel with
  | zero => intro i story; simp [judgeReviseLoop]
  | succ n ih =>
      intro i story
      simp only [judgeReviseLoop]
      by_cases h : jp i story = true
      · simp [h]
      · simp only [h, if_false]
        exact Nat.succ_le_succ (ih (i + 1) (rv i story))

lemma judgeReviseLoop_all_fail (jp : Nat → Str → Bool) (rv : Nat → Str → Str)
    (h : ∀ i s, jp i s = false) :
    ∀ fuel i story, judgeReviseLoop jp rv fuel i story
      = { final := reviseChain rv i fuel story, rounds := fuel, revisions := fuel } := by
  intro fuel
  induction fuel with
  | zero => intro i story; rfl
  | succ n ih =>
      intro i story
      have hrec := ih (i + 1) (rv i story)
      simp [judgeReviseLoop, h i story, hrec, reviseChain]

/-- C7: both judge-revise loops are bounded by their fixed round caps
(10 for the story loop, 5 for the brainstorm loop) regardless of judge
outcomes, and for a judge that fails every round the story loop performs
exactly 10 rounds and 10 revisions and proceeds with the last revised
artifact. -/
theorem C7_loop_caps :
    (∀ judge revise draft, (story_loop judge revise draft).rounds ≤ 10)
    ∧ (∀ judge revise draft, (brainstorm_loop judge revise draft).rounds ≤ 5)
    ∧ (∀ judge revise draft,
        (∀ i s, story_roster_pass (judge i s).safety (judge i s).comprehensibility
            (judge i s).writing (judge i s).thematic = false) →
        story_loop judge revise draft
          = { final := reviseChain revise 0 10 draft, rounds := 10, revisions := 10 }) := by
  refine ⟨?_, ?_, ?_⟩
  · intro j r d
    exact judgeReviseLoop_rounds_le _ _ 10 0 d
  · intro j r d
    exact judgeReviseLoop_rounds_le _ _ 5 0 d
  · intro j r d h
    exact judgeReviseLoop_all_fail _ _ (fun i s => h i s) 10 0 d

/-- C7 witness: a judge scoring every axis 1 on every round fails every
round; the story loop then runs exactly 10 rounds and returns the
10-fold revised draft — here revision prepends a character, so the loop
terminates with the draft prefixed by ten marks. -/
theorem C7_loop_caps_witness :
    story_loop (fun _ _ => ⟨1, 1, 1, 1⟩) (fun _ s => 'r' :: s) "d".data
        = { final := reviseChain (fun _ s => 'r' :: s) 0 10 "d".data,
            rounds := 10, revisions := 10 }
    ∧ reviseChain (fun _ s => 'r' :: s) 0 10 "d".data = "rrrrrrrrrrd".data := by
  refine ⟨C7_loop_caps.2.2 _ _ _ (fun i s => rfl), by decide⟩

/-! ## C9: first-round pass acceptance -/

/-- C9 counterexample: a first-round pass verdict whose comprehensibility
score is 4 (below the maximum 5) is accepted at once — the story loop
terminates after 1 round with 0 revision passes, contradicting the claim
that at least one revision must precede such a pass. -/
theorem C9_counterexample :
    story_loop (fun _ _ => ⟨5, 4, 5, 5⟩) (fun _ s => 'r' :: s) "d".data
        = { final := "d".data, rounds := 1, revisions := 0 }
    ∧ (⟨5, 4, 5, 5⟩ : AxisScores).comprehensibility < 5
    ∧ story_roster_pass 5 4 5 5 = true := by
  refine ⟨by decide, by decide, by decide⟩

/-- C9 (amended): the story loop accepts a pass verdict whenever it
occurs, including on the very first round with the comprehensibility
score below maximum: it terminates immediately with zero revision
passes. -/
theorem C9_first_round_pass_accepted (judge : Nat → Str → AxisScores)
    (revise : Nat → Str → Str) (draft : Str)
    (h : story_roster_pass (judge 0 draft).safety (judge 0 draft).comprehensibility
        (judge 0 draft).writing (judge 0 draft).thematic = true) :
    story_loop judge revise draft = { final := draft, rounds := 1, revisions := 0 } := by
  simp [story_loop, judgeReviseLoop, h]

/-- C9 witness: a concrete first-round pass (safety 5, the others 5/4/4)
is accepted with zero revisions. -/
theorem C9_first_round_pass_accepted_witness :
    story_loop (fun _ _ => ⟨5, 5, 4, 4⟩) (fun _ s => s) "w".data
      = { final := "w".data, rounds := 1, revisions := 0 } :=
  C9_first_round_pass_accepted _ _ _ (by decide)

/-! ## C2: the fail-rate escalation of `revise_story` -/

lemma apply_patches_report_length (story : Str) (patches : List Patch) :
    (apply_patches_deterministically story patches).2.length = patches.length := by
  induction patches generalizing story with
  | nil => rfl
  | cons p ps ih => simp [apply_patches_deterministically, ih]





/-- C2: the patch applier computes `fail_rate` as unapplied/total (0 for an
empty patch list); the rewrite fallback — which receives the original
pre-round artifact and the rendered patch list — is invoked iff
`fail_rate > 0.4`; otherwise the deterministically patched text is used,
and the two strategies' outputs are never merged.  With 3 of 5 patches
failing (`fail_rate = 0.6`) the fallback is invoked; with 1 of 5 failing
(`fail_rate = 0.2`) it is not and the deterministic text is returned. -/
theorem C2_fail_rate_escalation :
    (∀ (story : Str) (patches : List Patch),
      fail_rate_of (apply_patches_deterministically story patches).2
        = if patches = [] then 0
          else (((apply_patches_deterministically story patches).2.filter
                  (fun r => !r.applied)).length : ℚ) / (patches.length : ℚ))
    ∧ (∀ (C : RevisorCalls) (o p s : Str) (patches : List Patch) (flag : Bool),
        ((revise_story C o p s patches flag).2 = true
          ↔ fail_rate_of (apply_patches_deterministically s patches).2 > (0.4 : ℚ)))
    ∧ (∀ (C : RevisorCalls) (o p s : Str) (patches : List Patch),
        (revise_story C o p s patches false).1
          = if (revise_story C o p s patches false).2 = true
            then C.rewriteModel o p s (renderPatchList patches)
            else (apply_patches_deterministically s patches).1)
    ∧ (revise_story C2ex [] [] "abcde".data C2patchesHi false).2 = true
    ∧ (revise_story C2ex [] [] "abcde".data C2patchesLo false).2 = false
    ∧ (revise_story C2ex [] [] "abcde".data C2patchesLo false).1
        = (apply_patches_deterministically "abcde".data C2patchesLo).1 := by
  have ha : ∀ (story : Str) (patches : List Patch),
      fail_rate_of (apply_patches_deterministically story patches).2
        = if patches = [] then 0
          else (((apply_patches_deterministically story patches).2.filter
                  (fun r => !r.applied)).length : ℚ) / (patches.length : ℚ) := by
    intro story patches
    have hlen := apply_patches_report_length story patches
    by_cases hp : patches = []
    · subst hp; rfl
    · have hone : 1 ≤ patches.length := by
        have : patches.length ≠ 0 := fun h0 => hp (List.length_eq_zero.mp h0)
        omega
      have hrep : (apply_patches_deterministically story patches).2 ≠ [] := by
        intro h0
        rw [h0] at hlen
        exact hp (List.length_eq_zero.mp hlen.symm)
      rw [if_neg hp]
      unfold fail_rate_of
      rw [if_neg hrep, hlen, Nat.max_eq_right hone]
  have hb : ∀ (C : RevisorCalls) (o p s : Str) (patches : List Patch) (flag : Bool),
      ((revise_story C o p s patches flag).2 = true
        ↔ fail_rate_of (apply_patches_deterministically s patches).2 > (0.4 : ℚ)) := by
    intro C o p s patches flag
    show decide (patches ≠ [] ∧
        fail_rate_of (apply_patches_deterministically s patches).2 > (0.4 : ℚ)) = true ↔ _
    rw [decide_eq_true_iff]
    constructor
    · exact fun h => h.2
    · intro hfr
      refine ⟨?_, hfr⟩
      intro hp0
      rw [hp0] at hfr
      norm_num [apply_patches_deterministically, fail_rate_of] at hfr
  have hc : ∀ (C : RevisorCalls) (o p s : Str) (patches : List Patch),
      (revise_story C o p s patches false).1
        = if (revise_story C o p s patches false).2 = true
          then C.rewriteModel o p s (renderPatchList patches)
          else (apply_patches_deterministically s patches).1 := fun _ _ _ _ _ => rfl
  have hHi : fail_rate_of (apply_patches_deterministically "abcde".data C2patchesHi).2
      = ((3 : Nat) : ℚ) / ((5 : Nat) : ℚ) := rfl
  have hLo : fail_rate_of (apply_patches_deterministically "abcde".data C2patchesLo).2
      = ((1 : Nat) : ℚ) / ((5 : Nat) : ℚ) := rfl
  have hdHi : (revise_story C2ex [] [] "abcde".data C2patchesHi false).2 = true := by
    show decide (C2patchesHi ≠ [] ∧
        fail_rate_of (apply_patches_deterministically "abcde".data C2patchesHi).2 > (0.4 : ℚ)) = true
    rw [decide_eq_true_iff]
    refine ⟨by simp [C2patchesHi], ?_⟩
    rw [hHi]
    norm_num
  have hdLo : (revise_story C2ex [] [] "abcde".data C2patchesLo false).2 = false := by
    show decide (C2patchesLo ≠ [] ∧
        fail_rate_of (apply_patches_deterministically "abcde".data C2patchesLo).2 > (0.4 : ℚ)) = false
    apply decide_eq_false
    rintro ⟨-, hr⟩
    rw [hLo] at hr
    norm_num at hr
  refine ⟨ha, hb, hc, hdHi, hdLo, ?_⟩
  rw [hc, hdLo]
  simp

/-! ## C10: the smoothing pass always runs under the default flag -/


/-- C10: with `do_smoothing_pass = True` (the default), `revise_story`
always issues the smoothing call and returns its output — even for an
empty patch list — so the deterministically patched text is only returned
verbatim when `do_smoothing_pass = False` and the fallback did not fire;
the concrete instance shows the smoothed output differing from the
untouched artifact. -/
theorem C10_smoothing_always_runs :
    (∀ (C : RevisorCalls) (o p s : Str) (patches : List Patch),
      (revise_story C o p s patches true).1
        = C.smoothModel o p
            (if (revise_story C o p s patches true).2 = true
             then C.rewriteModel o p s (renderPatchList patches)
             else (apply_patches_deterministically s patches).1))
    ∧ (∀ (C : RevisorCalls) (o p s : Str),
        (revise_story C o p s [] true).1 = C.smoothModel o p s)
    ∧ (∀ (C : RevisorCalls) (o p s : Str) (patches : List Patch),
        (revise_story C o p s patches false).1
          = if (revise_story C o p s patches false).2 = true
            then C.rewriteModel o p s (renderPatchList patches)
            else (apply_patches_deterministically s patches).1)
    ∧ (revise_story C10ex [] [] "t".data [] true).1 = "St".data
    ∧ "St".data ≠ "t".data := by
  refine ⟨fun _ _ _ _ _ => rfl, fun _ _ _ _ => rfl, fun _ _ _ _ _ => rfl, rfl, by decide⟩

/-! ## C3: deterministic patch application semantics -/

/-- `replaceFirst` replaces exactly the first occurrence: the text splits
as `a ++ q ++ b` with `a` the shortest such prefix, and the result is
`a ++ f ++ b`. -/
lemma replaceFirst_spec (q f : Str) : ∀ (s : Str), q ≠ [] → q <:+: s →
    ∃ a b, s = a ++ q ++ b ∧ replaceFirst s q f = a ++ f ++ b ∧
      ∀ a1 b1, s = a1 ++ q ++ b1 → a.length ≤ a1.length := by
  intro s
  induction s with
  | nil =>
      intro hq hin
      exact absurd (List.infix_nil.mp hin) hq
  | cons c rest ih =>
      intro hq hin
      by_cases hpre : q <+: (c :: rest)
      · obtain ⟨b, hb⟩ := hpre
        refine ⟨[], b, by rw [← hb]; simp, ?_, fun a1 b1 _ => by simp⟩
        show (if q <+: (c :: rest) then f ++ (c :: rest).drop q.length
              else c :: replaceFirst rest q f) = [] ++ f ++ b
        rw [if_pos ⟨b, hb⟩, ← hb, List.drop_left]
        simp
      · have hinr : q <:+: rest := by
          rcases List.infix_cons_iff.mp hin with h | h
          · exact absurd h hpre
          · exact h
        obtain ⟨a, b, hsplit, hrepl, hmin⟩ := ih hq hinr
        refine ⟨c :: a, b, by simp [hsplit], ?_, ?_⟩
        · show (if q <+: (c :: rest) then f ++ (c :: rest).drop q.length
                else c :: replaceFirst rest q f) = (c :: a) ++ f ++ b
          rw [if_neg hpre, hrepl]
          simp
        · intro a1 b1 h1
          cases a1 with
          | nil =>
              exact absurd ⟨b1, by simpa using h1.symm⟩ hpre
          | cons c1 a1' =>
              injection h1 with h1a h1b
              simpa using Nat.succ_le_succ (hmin a1' b1 h1b)

/-- C3: patches are processed in the order supplied, each against the
cumulative text; a patch whose stripped quote is empty or absent leaves
the text unchanged and records `applied = False`; otherwise exactly the
first occurrence of the quote is replaced and `applied = True`;
consequently, when a patch's fix removed its quote, applying the same
patch a second time records `applied = False` and leaves the text
unchanged. -/
theorem C3_deterministic_patch_application :
    (∀ (story : Str) (p : Patch) (ps : List Patch),
      apply_patches_deterministically story (p :: ps)
        = ((apply_patches_deterministically
              (apply_patch_once story (pyStrip p.quote) (pyStrip p.fix)).1 ps).1,
           { judge := pyStrip p.judge,
             applied := (apply_patch_once story (pyStrip p.quote) (pyStrip p.fix)).2,
             reason := pyStrip p.reason, quote := pyStrip p.quote, fix := pyStrip p.fix }
            :: (apply_patches_deterministically
                  (apply_patch_once story (pyStrip p.quote) (pyStrip p.fix)).1 ps).2))
    ∧ (∀ (text q f : Str), (q = [] ∨ ¬ q <:+: text) →
        apply_patch_once text q f = (text, false))
    ∧ (∀ (text q f : Str), q ≠ [] → q <:+: text →
        ∃ a b, text = a ++ q ++ b ∧ apply_patch_once text q f = (a ++ f ++ b, true) ∧
          ∀ a1 b1, text = a1 ++ q ++ b1 → a.length ≤ a1.length)
    ∧ (∀ (story : Str) (p : Patch),
        pyStrip p.quote ≠ [] → pyStrip p.quote <:+: story →
        ¬ pyStrip p.quote <:+: replaceFirst story (pyStrip p.quote) (pyStrip p.fix) →
        apply_patches_deterministically story [p, p]
          = (replaceFirst story (pyStrip p.quote) (pyStrip p.fix),
             [{ judge := pyStrip p.judge, applied := true, reason := pyStrip p.reason,
                quote := pyStrip p.quote, fix := pyStrip p.fix },
              { judge := pyStrip p.judge, applied := false, reason := pyStrip p.reason,
                quote := pyStrip p.quote, fix := pyStrip p.fix }])) := by
  refine ⟨fun _ _ _ => rfl, ?_, ?_, ?_⟩
  · intro text q f h
    show (if q = [] ∨ ¬ q <:+: text then (text, false)
          else (replaceFirst text q f, true)) = (text, false)
    rw [if_pos h]
  · intro text q f hq hin
    obtain ⟨a, b, hsplit, hrepl, hmin⟩ := replaceFirst_spec q f text hq hin
    refine ⟨a, b, hsplit, ?_, hmin⟩
    have h1 : ¬ (q = [] ∨ ¬ q <:+: text) := by
      rintro (h | h)
      · exact hq h
      · exact h hin
    show (if q = [] ∨ ¬ q <:+: text then (text, false)
          else (replaceFirst text q f, true)) = (a ++ f ++ b, true)
    rw [if_neg h1, hrepl]
  · intro story p hq hin hnot
    have h1 : ¬ (pyStrip p.quote = [] ∨ ¬ pyStrip p.quote <:+: story) := by
      rintro (h | h)
      · exact hq h
      · exact h hin
    have e1 : apply_patch_once story (pyStrip p.quote) (pyStrip p.fix)
        = (replaceFirst story (pyStrip p.quote) (pyStrip p.fix), true) := by
      unfold apply_patch_once
      rw [if_neg h1]
    have e2 : apply_patch_once (replaceFirst story (pyStrip p.quote) (pyStrip p.fix))
          (pyStrip p.quote) (pyStrip p.fix)
        = (replaceFirst story (pyStrip p.quote) (pyStrip p.fix), false) := by
      unfold apply_patch_once
      rw [if_pos (Or.inr hnot)]
    simp [apply_patches_deterministically, e1, e2]

/-- C3 witness: a patch with an absent quote leaves `"ab"` unchanged with
`applied = False`; and for the patch `"ab" → "cd"` on `"ab"`, whose fix
removes the quote, the second application of the same patch records
`applied = False` and leaves the text at `"cd"`. -/
theorem C3_deterministic_patch_application_witness :
    apply_patch_once "ab".data "zz".data "y".data = ("ab".data, false)
    ∧ apply_patches_deterministically "ab".data [mkPatchC "ab" "cd", mkPatchC "ab" "cd"]
        = ("cd".data,
           [{ judge := "judge".data, applied := true, reason := "reason".data,
              quote := "ab".data, fix := "cd".data },
            { judge := "judge".data, applied := false, reason := "reason".data,
              quote := "ab".data, fix := "cd".data }]) := by
  constructor
  · exact C3_deterministic_patch_application.2.1 "ab".data "zz".data "y".data
      (Or.inr (by decide))
  · exact C3_deterministic_patch_application.2.2.2 "ab".data (mkPatchC "ab" "cd")
      (by decide) (by decide) (by decide)

/-! ## C4 and C6: the verdict parser -/

lemma dictLookup_append (d e : PyDict) (k : Str) :
    dictLookup (d ++ e) k
      = if (dictLookup d k).isSome then dictLookup d k else dictLookup e k := by
  induction d with
  | nil => simp [dictLookup]
  | cons hd tl ih =>
      obtain ⟨k0, v0⟩ := hd
      by_cases h : k0 = k
      · simp [dictLookup, h]
      · simpa [dictLookup, h] using ih

lemma dictLookup_setdefault_same (d : PyDict) (k : Str) (v : JsonVal) :
    dictLookup (setdefault d k v) k = some ((dictLookup d k).getD v) := by
  unfold setdefault
  by_cases h : (dictLookup d k).isSome
  · obtain ⟨x, hx⟩ := Option.isSome_iff_exists.mp h
    rw [if_pos h, hx]
    rfl
  · rw [if_neg h, dictLookup_append, if_neg h,
        Option.not_isSome_iff_eq_none.mp h]
    simp [dictLookup]

lemma dictLookup_setdefault_other (d : PyDict) (k k2 : Str) (v : JsonVal) (h : k2 ≠ k) :
    dictLookup (setdefault d k2 v) k = dictLookup d k := by
  unfold setdefault
  by_cases h2 : (dictLookup d k2).isSome
  · rw [if_pos h2]
  · rw [if_neg h2, dictLookup_append]
    by_cases h3 : (dictLookup d k).isSome
    · rw [if_pos h3]
    · rw [if_neg h3, Option.not_isSome_iff_eq_none.mp h3]
      simp [dictLookup, h]

lemma dictLookup_dictSet_other (d : PyDict) (k k2 : Str) (v : JsonVal) (h : k2 ≠ k) :
    dictLookup (dictSet d k2 v) k = dictLookup d k := by
  induction d with
  | nil => simp [dictSet, dictLookup, h]
  | cons hd tl ih =>
      obtain ⟨k0, v0⟩ := hd
      by_cases h0 : k0 = k2
      · subst h0
        simp [dictSet, dictLookup, h]
      · by_cases h1 : k0 = k
        · simp [dictSet, dictLookup, h0, h1, Ne.symm h]
        · simp [dictSet, dictLookup, h0, h1, ih]

/-- Shared: any input on which `json.loads` fails to deliver a dict makes
`parse_judge_response` return a copy of the default. -/
lemma parse_judge_response_default (loads : Str → Option JsonVal) (response : Str)
    (default : Option PyDict) (h : notJsonObject (loads (extract_json_object response))) :
    parse_judge_response loads response default = default.getD DEFAULT_JUDGE_RESPONSE := by
  cases hl : loads (extract_json_object response) with
  | none => simp [parse_judge_response, hl]
  | some v =>
      cases v with
      | obj fs =>
          rw [hl] at h
          simp [notJsonObject] at h
      | null => simp [parse_judge_response, hl]
      | bool b => simp [parse_judge_response, hl]
      | num n => simp [parse_judge_response, hl]
      | str s => simp [parse_judge_response, hl]
      | arr xs => simp [parse_judge_response, hl]

/-- Shared: on a successfully decoded object, the returned verdict's score
is the object's score when present, else the `setdefault` value 1. -/
lemma parse_judge_response_score_obj (loads : Str → Option JsonVal) (response : Str)
    (default : Option PyDict) (fs : List (Str × JsonVal))
    (hl : loads (extract_json_object response) = some (.obj fs)) :
    dictLookup (parse_judge_response loads response default) "score".data
      = some ((dictLookup fs "score".data).getD (.num 1)) := by
  unfold parse_judge_response
  rw [hl]
  rw [dictLookup_dictSet_other _ _ _ _ (by decide),
      dictLookup_setdefault_other _ _ _ _ (by decide),
      dictLookup_setdefault_other _ _ _ _ (by decide),
      dictLookup_setdefault_other _ _ _ _ (by decide),
      dictLookup_setdefault_same]

/-- C4: whenever the input is not a valid JSON object after
fence-stripping and brace-slicing (the decode raised, or produced a
non-dict), the parser returns the supplied default — or, when none is
supplied, the built-in fail-closed default with score 1, empty metrics,
the fixed error critique and empty violations — and, being total, never
raises. -/
theorem C4_parser_fail_closed :
    (∀ (loads : Str → Option JsonVal) (response : Str) (default : Option PyDict),
      notJsonObject (loads (extract_json_object response)) →
      parse_judge_response loads response default = default.getD DEFAULT_JUDGE_RESPONSE)
    ∧ dictLookup DEFAULT_JUDGE_RESPONSE "score".data = some (.num 1)
    ∧ dictLookup DEFAULT_JUDGE_RESPONSE "metrics".data = some (.obj [])
    ∧ dictLookup DEFAULT_JUDGE_RESPONSE "critique".data
        = some (.str "Error: Judge failed to produce valid JSON.".data)
    ∧ dictLookup DEFAULT_JUDGE_RESPONSE "violations".data = some (.arr []) :=
  ⟨parse_judge_response_default, rfl, rfl, rfl, rfl⟩

/-- C4 witness: on the input `"not json"` with a raising decode and no
supplied default, the parser returns the built-in fail-closed default. -/
theorem C4_parser_fail_closed_witness :
    notJsonObject ((fun _ => (none : Option JsonVal)) (extract_json_object "not json".data))
    ∧ parse_judge_response (fun _ => none) "not json".data none = DEFAULT_JUDGE_RESPONSE :=
  ⟨trivial, C4_parser_fail_closed.1 (fun _ => none) "not json".data none trivial⟩

/-- C6 counterexample: on the response `{"score": 7}` the parser returns a
verdict whose score is 7, which is not between 1 and 5 — `setdefault`
fills a missing score but never clamps a present one. -/
theorem C6_counterexample :
    dictLookup (parse_judge_response loadsScore7 jsonScore7 none) "score".data
      = some (.num 7)
    ∧ ¬ ((7 : Int) ≤ 5) := by
  refine ⟨?_, by decide⟩
  rfl

/-- C6 (amended): with the built-in default, the returned verdict always
has a score field; it is 1 on any parse failure and on a decoded object
lacking a score; when the decoded object supplies a score the parser
returns it unchanged, with no range validation. -/
theorem C6_score_field (loads : Str → Option JsonVal) (response : Str) :
    (notJsonObject (loads (extract_json_object response)) →
      dictLookup (parse_judge_response loads response none) "score".data = some (.num 1))
    ∧ (∀ fs, loads (extract_json_object response) = some (.obj fs) →
        dictLookup (parse_judge_response loads response none) "score".data
          = some ((dictLookup fs "score".data).getD (.num 1)))
    ∧ (dictLookup (parse_judge_response loads response none) "score".data).isSome = true := by
  refine ⟨?_, ?_, ?_⟩
  · intro h
    rw [parse_judge_response_default loads response none h]
    rfl
  · intro fs hl
    exact parse_judge_response_score_obj loads response none fs hl
  · cases hl : loads (extract_json_object response) with
    | none =>
        rw [parse_judge_response_default loads response none (by rw [hl]; trivial)]
        rfl
    | some v =>
        cases v with
        | obj fs =>
            rw [parse_judge_response_score_obj loads response none fs hl]
            rfl
        | null =>
            rw [parse_judge_response_default loads response none (by rw [hl]; trivial)]
            rfl
        | bool b =>
            rw [parse_judge_response_default loads response none (by rw [hl]; trivial)]
            rfl
        | num n =>
            rw [parse_judge_response_default loads response none (by rw [hl]; trivial)]
            rfl
        | str s =>
            rw [parse_judge_response_default loads response none (by rw [hl]; trivial)]
            rfl
        | arr xs =>
            rw [parse_judge_response_default loads response none (by rw [hl]; trivial)]
            rfl

/-- C6 witness: with a raising decode the score is 1; on the decoded
object `{"score": 7}` the score is the object's own value. -/
theorem C6_score_field_witness :
    dictLookup (parse_judge_response (fun _ => none) "x".data none) "score".data = some (.num 1)
    ∧ dictLookup (parse_judge_response loadsScore7 jsonScore7 none) "score".data
        = some ((dictLookup [("score".data, JsonVal.num 7)] "score".data).getD (.num 1)) := by
  constructor
  · exact (C6_score_field (fun _ => none) "x".data).1 trivial
  · exact (C6_score_field loadsScore7 jsonScore7).2.1 [("score".data, JsonVal.num 7)] rfl
